import Mathlib

/-!
Shallow embedding of the tx20bridge6410 firmware core (adctask.cpp / adctask.h /
davis6410.h), for checking the natural-language specification against the code.

The C++ scheduler state lives in file-scope globals of adctask.cpp plus a few
AVR hardware registers; here they are gathered into one record `AdcState`.
Tasks are identified by natural numbers; the per-object members of `adctask`
(`ignore_count_`, `adc_pin_`, `filter_`) become maps indexed by task id.
Machine `uint8_t` values are modelled as `Nat`; the only places where 8-bit
truncation matters are the `& 0x07` channel mask (kept literally) and
`ignore_count_`, which is only ever set to 4 and decremented while nonzero,
so it never wraps.

Ghost instrumentation (not present in the C++, observation only):
`pending_channel` / `sample_channel` record which analog channel the
in-flight / latest conversion was performed on, and `service_log` /
`filter_log` record, per task, the samples delivered to `adctask::service`
and the samples forwarded to `filter::process_sample`.  The filter itself is
an out-of-scope collaborator; only the call to it is recorded.
-/

/-- adctask.cpp line 12: `constexpr int k_timer_1_comapre_to = 7;` (sic). -/
def k_timer_1_comapre_to : Nat := 7

/-- adctask.cpp line 15: `constexpr uint32_t k_timer_1_frequency = 31250;`
(the implementation file's copy of the constant). -/
def k_timer_1_frequency_impl : Nat := 31250

/-- adctask.h line 7: `constexpr uint32_t k_arduino_frequency = 16000000;`. -/
def k_arduino_frequency : Nat := 16000000

/-- adctask.h line 10: `constexpr uint32_t k_timer_1_frequency = 5000;`
(the header's copy of the constant, distinct from the one in adctask.cpp). -/
def k_timer_1_frequency_hdr : Nat := 5000

/-- adctask.h line 15: `constexpr uint32_t k_adc_sample_rate = k_timer_1_frequency;`,
referring to the header's constant. -/
def k_adc_sample_rate : Nat := k_timer_1_frequency_hdr

/-- adctask.cpp line 18: `constexpr uint8_t k_adc_prescaler = 32;`. -/
def k_adc_prescaler : Nat := 32

/-- adctask.cpp line 22: `constexpr uint8_t k_adc_ignore_count = 4;`. -/
def k_adc_ignore_count : Nat := 4

/-- The scheduler's global state (adctask.cpp lines 25-34), the relevant AVR
registers, the per-task `adctask` members, and ghost observation logs. -/
structure AdcState where
  /-- `static uint8_t current_adc_pin = 255;` -/
  current_adc_pin : Nat
  /-- `static uint8_t next_adc_pin = 0;` -/
  next_adc_pin : Nat
  /-- `static adctask* current_adc_task = nullptr;` (task id or none). -/
  current_adc_task : Option Nat
  /-- `static bool adc_tasks_initialised = false;` -/
  adc_tasks_initialised : Bool
  /-- The ADMUX register byte. -/
  ADMUX : Nat
  /-- The ADSC bit of ADCSRA: true while a conversion is in flight. -/
  ADSC : Bool
  /-- The ADCH register (8-bit left-aligned conversion result). -/
  ADCH : Nat
  /-- Ghost: the analog channel of the conversion currently in flight
  (or, once complete, of the result sitting in ADCH). -/
  pending_channel : Nat
  /-- Ghost: the analog channel on which the value in ADCH was converted. -/
  sample_channel : Nat
  /-- Per task: member `ignore_count_` of `adctask`. -/
  ignore_count_ : Nat → Nat
  /-- Per task: member `adc_pin_` of `adctask` (set by the constructor). -/
  adc_pin_ : Nat → Nat
  /-- Per task: whether member `filter_` of `adctask` is non-null. -/
  has_filter : Nat → Bool
  /-- Ghost: samples delivered to each task's `service`, oldest first. -/
  service_log : Nat → List Nat
  /-- Ghost: samples forwarded to each task's `filter_->process_sample`,
  oldest first. -/
  filter_log : Nat → List Nat

/-- adctask.cpp line 41: `static void analog_trigger() { sbi(ADCSRA, ADSC); }`.
Starting a conversion latches the channel currently selected in ADMUX
(ghost field `pending_channel`). -/
def analog_trigger (s : AdcState) : AdcState :=
  { s with ADSC := true, pending_channel := s.ADMUX % 8 }

/-- adctask.cpp line 46: `static bool analog_ready() { return !bit_is_set(ADCSRA, ADSC); }`. -/
def analog_ready (s : AdcState) : Bool := !s.ADSC

/-- adctask.cpp line 53: `static uint8_t analog_read() { return ADCH; }`. -/
def analog_read (s : AdcState) : Nat := s.ADCH

/-- Environment step (the ADC hardware, not firmware code): a conversion in
flight completes: hardware clears ADSC and deposits the converted value of the
pending channel in ADCH.  `input` gives the analog value of each channel.
Does nothing when no conversion is in flight. -/
def adc_complete (input : Nat → Nat) (s : AdcState) : AdcState :=
  if s.ADSC then
    { s with ADSC := false, ADCH := input s.pending_channel % 256,
             sample_channel := s.pending_channel }
  else s

/-- adctask.cpp lines 242-248, `adctask::service`:
```
if (ignore_count_) --ignore_count_;
else if (filter_) filter_->process_sample(sample);
```
The ghost `service_log` records the call itself; `filter_log` records the
forward to the filter. -/
def adctask.service (t : Nat) (sample : Nat) (s : AdcState) : AdcState :=
  let s1 : AdcState :=
    { s with service_log := Function.update s.service_log t (s.service_log t ++ [sample]) }
  if s1.ignore_count_ t ≠ 0 then
    { s1 with ignore_count_ := Function.update s1.ignore_count_ t (s1.ignore_count_ t - 1) }
  else if s1.has_filter t then
    { s1 with filter_log := Function.update s1.filter_log t (s1.filter_log t ++ [sample]) }
  else s1

/-- adctask.cpp line 79: the ADMUX byte written on a channel switch:
`ADMUX = (1 << 6) | (1 << 5) | (next_adc_pin & 0x07);`. -/
def admux_value (pin : Nat) : Nat := (1 <<< 6) ||| (1 <<< 5) ||| (pin &&& 0x07)

/-- adctask.cpp lines 60-88, `ISR(TIMER1_COMPA_vect)`: the timer-1 tick.
If the conversion is not ready, return.  Otherwise read the sample; if the
requested channel differs from the current one, write ADMUX and record the
requested channel as current; re-trigger; dispatch the sample to the current
task if there is one. -/
def isr_tick (s : AdcState) : AdcState :=
  if !analog_ready s then s
  else
    let sample := analog_read s
    let s1 : AdcState :=
      if s.next_adc_pin ≠ s.current_adc_pin then
        { s with ADMUX := admux_value s.next_adc_pin,
                 current_adc_pin := s.next_adc_pin }
      else s
    let s2 := analog_trigger s1
    match s2.current_adc_task with
    | some t => adctask.service t sample s2
    | none => s2

/-- adctask.cpp lines 189-200, `init_adc_tasks`: if already initialised do
nothing, else configure timer 1 and the ADC prescaler (register writes with no
observable effect on the modelled state), trigger the first conversion and set
the flag. -/
def init_adc_tasks (s : AdcState) : AdcState :=
  if s.adc_tasks_initialised then s
  else { analog_trigger s with adc_tasks_initialised := true }

/-- adctask.cpp lines 211-231, `adctask::start_task` for task `t`
(the `cli()`/`sei()` critical section is atomicity, implicit in this
sequential model): initialise if needed, set `next_adc_pin` to the task's pin,
arm the settle countdown, install the task as current, trigger. -/
def adctask.start_task (t : Nat) (s : AdcState) : AdcState :=
  let s1 := init_adc_tasks s
  let s2 : AdcState := { s1 with next_adc_pin := s1.adc_pin_ t }
  let s3 : AdcState :=
    { s2 with ignore_count_ := Function.update s2.ignore_count_ t k_adc_ignore_count }
  let s4 : AdcState :=
    if s3.current_adc_task ≠ some t then { s3 with current_adc_task := some t } else s3
  analog_trigger s4

/-- adctask.cpp lines 233-240, `adctask::stop_task`: clear the registration
only when this task is the current holder. -/
def adctask.stop_task (t : Nat) (s : AdcState) : AdcState :=
  if s.current_adc_task = some t then { s with current_adc_task := none } else s

/-- Events that can happen to the scheduler after a task activation:
a timer tick, a hardware conversion completing, or some task stopping. -/
inductive AdcEvent where
  | tick : AdcEvent
  | complete : (Nat → Nat) → AdcEvent
  | stop : Nat → AdcEvent

/-- Apply one event to the scheduler state. -/
def AdcEvent.apply (s : AdcState) : AdcEvent → AdcState
  | AdcEvent.tick => isr_tick s
  | AdcEvent.complete input => adc_complete input s
  | AdcEvent.stop t => adctask.stop_task t s

/-- Run a sequence of events. -/
def runEvents (evs : List AdcEvent) (s : AdcState) : AdcState :=
  evs.foldl AdcEvent.apply s

/-- Deliver a list of samples to task `t` through `adctask::service`. -/
def deliver (t : Nat) (xs : List Nat) (s : AdcState) : AdcState :=
  xs.foldl (fun s x => adctask.service t x s) s

/-- davis6410.h lines 40-46: the state enum of the wind-meter state machine. -/
inductive davis6410state where
  | idle : davis6410state
  | new_sample : davis6410state
  | sampling_speed : davis6410state
  | sampling_direction : davis6410state
  | send_frame : davis6410state
deriving DecidableEq

/-- The wind-meter object state (davis6410.h lines 104-125) together with the
external pulse-counter collaborator.  Callbacks and contexts are opaque and
modelled as numeric identities. -/
structure davis6410 where
  /-- `davis6410state state_ = davis6410state::idle;` -/
  state_ : davis6410state
  /-- `unsigned long sample_start_time_;` -/
  sample_start_time_ : Nat
  /-- `windsamplefn sample_fn_ = nullptr;` (callback identity or none). -/
  sample_fn_ : Option Nat
  /-- `void* context_ = nullptr;` (opaque context identity). -/
  context_ : Nat
  /-- `uint8_t sample_pulse_count_;` (pulse count captured for the frame). -/
  sample_pulse_count_ : Nat
  /-- `int sample_direction_;` (last raw direction reading). -/
  sample_direction_ : Nat
  /-- The external pulse counter collaborator's accumulated edge count. -/
  pulse_counter : Nat

/-- Modelled from the spec: the body of `davis6410::start_sample` is not under
src (davis6410.h declares it; the implementing .cpp file is absent).  Spec
section 4.4, idle state: "On start_sample(callback, context): if another
sample is already in progress, fail (return false) without disturbing the
in-progress one; otherwise record the callback/context, reset the pulse
counter, record the current timestamp as the window start, transition to
counting-speed ... and return true."  `now` is the current timestamp. -/
def davis6410.start_sample (fn ctx now : Nat) (d : davis6410) : davis6410 × Bool :=
  if d.state_ = davis6410state.idle then
    ({ d with sample_fn_ := some fn, context_ := ctx, pulse_counter := 0,
              sample_start_time_ := now,
              state_ := davis6410state.sampling_speed }, true)
  else (d, false)

/-- A concrete scheduler state used to instantiate theorems with hypotheses:
task 0 owns a filter and pin 1, task 1 has no filter and pin 3; task 0 is the
registered task; a conversion on channel 0 has completed. -/
def demoState : AdcState :=
  { current_adc_pin := 255, next_adc_pin := 0, current_adc_task := some 0,
    adc_tasks_initialised := true, ADMUX := 96, ADSC := false, ADCH := 17,
    pending_channel := 0, sample_channel := 0,
    ignore_count_ := fun _ => 0, adc_pin_ := fun t => if t = 0 then 1 else 3,
    has_filter := fun t => t == 0,
    service_log := fun _ => [], filter_log := fun _ => [] }

/-- A concrete scheduler state with a conversion still in flight. -/
def demoBusyState : AdcState :=
  { demoState with ADSC := true }

/-- A concrete idle wind-meter state used to instantiate theorems. -/
def demoDavis : davis6410 :=
  { state_ := davis6410state.idle, sample_start_time_ := 0, sample_fn_ := none,
    context_ := 0, sample_pulse_count_ := 0, sample_direction_ := 0,
    pulse_counter := 7 }

/-- A concrete wind-meter state with a sample window in progress. -/
def demoDavisBusy : davis6410 :=
  { demoDavis with state_ := davis6410state.sampling_speed }

/-- Channel coherence: the conversion in flight (or just completed) is on the
channel selected in ADMUX, and once it has completed, the value in ADCH was
converted on that channel.  This holds of the power-on state (all registers
zero) and is preserved by every operation. -/
def chanInv (s : AdcState) : Prop :=
  s.pending_channel = s.ADMUX % 8 ∧
  (s.ADSC = false → s.sample_channel = s.pending_channel)

/-! Helper lemmas about the individual operations. -/

lemma service_current_adc_task (t x : Nat) (s : AdcState) :
    (adctask.service t x s).current_adc_task = s.current_adc_task := by
  simp only [adctask.service]
  split
  · rfl
  · split <;> rfl

lemma service_hw_frame (t x : Nat) (s : AdcState) :
    (adctask.service t x s).current_adc_pin = s.current_adc_pin ∧
    (adctask.service t x s).next_adc_pin = s.next_adc_pin ∧
    (adctask.service t x s).adc_tasks_initialised = s.adc_tasks_initialised ∧
    (adctask.service t x s).ADMUX = s.ADMUX ∧
    (adctask.service t x s).ADSC = s.ADSC ∧
    (adctask.service t x s).ADCH = s.ADCH ∧
    (adctask.service t x s).pending_channel = s.pending_channel ∧
    (adctask.service t x s).sample_channel = s.sample_channel ∧
    (adctask.service t x s).adc_pin_ = s.adc_pin_ ∧
    (adctask.service t x s).has_filter = s.has_filter := by
  simp only [adctask.service]
  split
  · exact ⟨rfl, rfl, rfl, rfl, rfl, rfl, rfl, rfl, rfl, rfl⟩
  · split <;> exact ⟨rfl, rfl, rfl, rfl, rfl, rfl, rfl, rfl, rfl, rfl⟩

lemma service_log_other (t x u : Nat) (s : AdcState) (h : u ≠ t) :
    (adctask.service t x s).service_log u = s.service_log u := by
  simp only [adctask.service]
  split
  · exact Function.update_noteq h _ _
  · split <;> exact Function.update_noteq h _ _

lemma service_ignore_pos (t x : Nat) (s : AdcState) (h : s.ignore_count_ t ≠ 0) :
    (adctask.service t x s).ignore_count_ t = s.ignore_count_ t - 1 ∧
    (adctask.service t x s).filter_log = s.filter_log := by
  simp only [adctask.service, if_pos h]
  exact ⟨Function.update_same _ _ _, trivial⟩

lemma service_ignore_zero_filter (t x : Nat) (s : AdcState)
    (h0 : s.ignore_count_ t = 0) (hf : s.has_filter t = true) :
    (adctask.service t x s).filter_log t = s.filter_log t ++ [x] ∧
    (adctask.service t x s).ignore_count_ = s.ignore_count_ := by
  simp only [adctask.service, h0, ne_eq, not_true_eq_false, if_neg, if_pos hf,
    not_not, if_false]
  constructor
  · exact Function.update_same _ _ _
  · trivial

lemma service_no_filter (t x : Nat) (s : AdcState) (hf : s.has_filter t = false) :
    (adctask.service t x s).filter_log = s.filter_log := by
  simp only [adctask.service]
  split
  · rfl
  · rw [if_neg]
    simp [hf]

lemma trigger_frame (s : AdcState) :
    (analog_trigger s).current_adc_pin = s.current_adc_pin ∧
    (analog_trigger s).next_adc_pin = s.next_adc_pin ∧
    (analog_trigger s).current_adc_task = s.current_adc_task ∧
    (analog_trigger s).ADMUX = s.ADMUX ∧
    (analog_trigger s).ADCH = s.ADCH ∧
    (analog_trigger s).sample_channel = s.sample_channel ∧
    (analog_trigger s).ignore_count_ = s.ignore_count_ ∧
    (analog_trigger s).service_log = s.service_log ∧
    (analog_trigger s).filter_log = s.filter_log := by
  exact ⟨rfl, rfl, rfl, rfl, rfl, rfl, rfl, rfl, rfl⟩

lemma isr_tick_not_ready (s : AdcState) (h : s.ADSC = true) : isr_tick s = s := by
  simp [isr_tick, analog_ready, h]

lemma isr_tick_current_task (s : AdcState) :
    (isr_tick s).current_adc_task = s.current_adc_task := by
  simp only [isr_tick]
  split
  · rfl
  · split
    · rw [service_current_adc_task]
      split <;> rfl
    · split <;> rfl

lemma isr_tick_service_log_other (s : AdcState) (u : Nat)
    (h : s.current_adc_task ≠ some u) :
    (isr_tick s).service_log u = s.service_log u := by
  simp only [isr_tick]
  split
  · rfl
  · split
    · rename_i heq
      have htask : (analog_trigger (if s.next_adc_pin ≠ s.current_adc_pin then
          { s with ADMUX := admux_value s.next_adc_pin,
                   current_adc_pin := s.next_adc_pin }
          else s)).current_adc_task = s.current_adc_task := by
        split <;> rfl
      rw [service_log_other]
      · split <;> rfl
      · intro hut
        rw [htask] at heq
        exact h (hut ▸ heq ▸ rfl)
    · split <;> rfl

lemma complete_frame (input : Nat → Nat) (s : AdcState) :
    (adc_complete input s).current_adc_pin = s.current_adc_pin ∧
    (adc_complete input s).next_adc_pin = s.next_adc_pin ∧
    (adc_complete input s).current_adc_task = s.current_adc_task ∧
    (adc_complete input s).service_log = s.service_log ∧
    (adc_complete input s).filter_log = s.filter_log := by
  simp only [adc_complete]
  split <;> exact ⟨rfl, rfl, rfl, rfl, rfl⟩

lemma stop_task_frame (t : Nat) (s : AdcState) :
    (adctask.stop_task t s).current_adc_pin = s.current_adc_pin ∧
    (adctask.stop_task t s).next_adc_pin = s.next_adc_pin ∧
    (adctask.stop_task t s).service_log = s.service_log ∧
    (adctask.stop_task t s).filter_log = s.filter_log := by
  simp only [adctask.stop_task]
  split <;> exact ⟨rfl, rfl, rfl, rfl⟩

lemma stop_task_not_some (t u : Nat) (s : AdcState)
    (h : s.current_adc_task ≠ some u) :
    (adctask.stop_task t s).current_adc_task ≠ some u := by
  simp only [adctask.stop_task]
  split
  · simp
  · exact h

/-- A task that is not registered never has its `service` called across any
event sequence, and no event sequence can register it on its own. -/
lemma run_no_dispatch (u : Nat) :
    ∀ (evs : List AdcEvent) (s : AdcState), s.current_adc_task ≠ some u →
      (runEvents evs s).current_adc_task ≠ some u ∧
      (runEvents evs s).service_log u = s.service_log u := by
  intro evs
  induction evs with
  | nil => exact fun s h => ⟨h, rfl⟩
  | cons e evs ih =>
    intro s h
    have hstep : (AdcEvent.apply s e).current_adc_task ≠ some u ∧
        (AdcEvent.apply s e).service_log u = s.service_log u := by
      cases e with
      | tick =>
        exact ⟨(isr_tick_current_task s) ▸ h, isr_tick_service_log_other s u h⟩
      | complete input =>
        exact ⟨(complete_frame input s).2.2.1 ▸ h,
          congrFun (complete_frame input s).2.2.2.1 u⟩
      | stop t =>
        exact ⟨stop_task_not_some t u s h, congrFun (stop_task_frame t s).2.2.1 u⟩
    have := ih (AdcEvent.apply s e) hstep.1
    exact ⟨this.1, by rw [runEvents, List.foldl_cons, ← runEvents, this.2, hstep.2]⟩

lemma service_log_self (t x : Nat) (s : AdcState) :
    (adctask.service t x s).service_log t = s.service_log t ++ [x] := by
  simp only [adctask.service]
  split
  · exact Function.update_same _ _ _
  · split <;> exact Function.update_same _ _ _

lemma start_task_state (t : Nat) (s : AdcState) :
    (adctask.start_task t s).current_adc_task = some t ∧
    (adctask.start_task t s).ignore_count_ t = k_adc_ignore_count ∧
    (adctask.start_task t s).service_log = s.service_log ∧
    (adctask.start_task t s).filter_log = s.filter_log ∧
    (adctask.start_task t s).has_filter = s.has_filter ∧
    (adctask.start_task t s).current_adc_pin = s.current_adc_pin := by
  simp only [adctask.start_task, init_adc_tasks, analog_trigger]
  split <;> split <;>
    refine ⟨?_, Function.update_same _ _ _, rfl, rfl, rfl, rfl⟩ <;>
    simp_all

lemma deliver_filter_log (t : Nat) :
    ∀ (xs : List Nat) (s : AdcState), s.has_filter t = true →
      (deliver t xs s).filter_log t = s.filter_log t ++ xs.drop (s.ignore_count_ t) := by
  intro xs
  induction xs with
  | nil => intro s _; simp [deliver]
  | cons x xs ih =>
    intro s h
    have hstep : deliver t (x :: xs) s = deliver t xs (adctask.service t x s) := rfl
    have hh : (adctask.service t x s).has_filter t = true := by
      rw [congrFun (service_hw_frame t x s).2.2.2.2.2.2.2.2.2 t]; exact h
    by_cases h0 : s.ignore_count_ t = 0
    · have hf := service_ignore_zero_filter t x s h0 h
      rw [hstep, ih _ hh, hf.1, congrFun hf.2 t, h0, List.drop_zero, List.drop_zero,
        List.append_assoc, List.singleton_append]
    · obtain ⟨n, hn⟩ := Nat.exists_eq_succ_of_ne_zero h0
      have hp := service_ignore_pos t x s h0
      rw [hstep, ih _ hh, congrFun hp.2 t, hp.1, hn, List.drop_succ_cons,
        Nat.succ_sub_one]

lemma tick_ready_current_pin (s : AdcState) (hready : s.ADSC = false) :
    (isr_tick s).current_adc_pin = s.next_adc_pin := by
  simp only [isr_tick, analog_ready, hready, Bool.not_false, Bool.not_true,
    Bool.false_eq_true, if_false]
  split
  · rw [(service_hw_frame _ _ _).1]
    split
    · rfl
    · simp_all [analog_trigger]
  · split
    · rfl
    · simp_all [analog_trigger]

lemma tick_ready_ADMUX (s : AdcState) (hready : s.ADSC = false) :
    (isr_tick s).ADMUX =
      (if s.next_adc_pin ≠ s.current_adc_pin then admux_value s.next_adc_pin
       else s.ADMUX) := by
  simp only [isr_tick, analog_ready, hready, Bool.not_false, Bool.not_true,
    Bool.false_eq_true, if_false]
  split
  · rw [(service_hw_frame _ _ _).2.2.2.1]
    split <;> simp_all [analog_trigger]
  · split <;> simp_all [analog_trigger]

lemma tick_ready_ADSC (s : AdcState) (hready : s.ADSC = false) :
    (isr_tick s).ADSC = true := by
  simp only [isr_tick, analog_ready, hready, Bool.not_false, Bool.not_true,
    Bool.false_eq_true, if_false]
  split
  · rw [(service_hw_frame _ _ _).2.2.2.2.1]
    rfl
  · rfl

lemma tick_ready_pending (s : AdcState) (hready : s.ADSC = false) :
    (isr_tick s).pending_channel = (isr_tick s).ADMUX % 8 := by
  simp only [isr_tick, analog_ready, hready, Bool.not_false, Bool.not_true,
    Bool.false_eq_true, if_false]
  split
  · rw [(service_hw_frame _ _ _).2.2.2.2.2.2.1, (service_hw_frame _ _ _).2.2.2.1]
    rfl
  · rfl

lemma deliver_no_filter (t : Nat) :
    ∀ (xs : List Nat) (s : AdcState), s.has_filter t = false →
      (deliver t xs s).filter_log = s.filter_log := by
  intro xs
  induction xs with
  | nil => intro s _; rfl
  | cons x xs ih =>
    intro s h
    have hh : (adctask.service t x s).has_filter t = false := by
      rw [congrFun (service_hw_frame t x s).2.2.2.2.2.2.2.2.2 t]; exact h
    have hstep : deliver t (x :: xs) s = deliver t xs (adctask.service t x s) := rfl
    rw [hstep, ih _ hh, service_no_filter t x s h]

lemma service_drop_sample (t x : Nat) (s : AdcState)
    (h0 : s.ignore_count_ t = 0) (hnf : s.has_filter t = false) :
    adctask.service t x s =
      { s with service_log :=
          Function.update s.service_log t (s.service_log t ++ [x]) } := by
  simp [adctask.service, h0, hnf]

lemma tick_ready_dispatch (s : AdcState) (t : Nat) (hready : s.ADSC = false)
    (ht : s.current_adc_task = some t) :
    (isr_tick s).service_log t = s.service_log t ++ [s.ADCH] := by
  simp only [isr_tick, analog_ready, hready, Bool.not_false, Bool.not_true,
    Bool.false_eq_true, if_false]
  have htask : ∀ s1 : AdcState,
      (analog_trigger s1).current_adc_task = s1.current_adc_task := fun _ => rfl
  split
  · rename_i t' heq
    have ht' : t' = t := by
      rw [htask] at heq
      split at heq <;> (rw [ht] at heq; exact (Option.some.inj heq).symm)
    subst ht'
    rw [service_log_self]
    split <;> rfl
  · rename_i heq
    rw [htask] at heq
    split at heq <;> (rw [ht] at heq; cases heq)

lemma chanInv_trigger (s : AdcState) : chanInv (analog_trigger s) := by
  refine ⟨rfl, ?_⟩
  intro h
  cases h

lemma chanInv_service (t x : Nat) (s : AdcState) (h : chanInv s) :
    chanInv (adctask.service t x s) := by
  have hf := service_hw_frame t x s
  constructor
  · rw [hf.2.2.2.2.2.2.1, hf.2.2.2.1]
    exact h.1
  · intro hr
    rw [hf.2.2.2.2.1] at hr
    rw [hf.2.2.2.2.2.2.2.1, hf.2.2.2.2.2.2.1]
    exact h.2 hr

lemma chanInv_tick (s : AdcState) (h : chanInv s) : chanInv (isr_tick s) := by
  simp only [isr_tick]
  split
  · exact h
  · split
    · exact chanInv_service _ _ _ (chanInv_trigger _)
    · exact chanInv_trigger _

lemma chanInv_start (t : Nat) (s : AdcState) : chanInv (adctask.start_task t s) :=
  chanInv_trigger _

lemma chanInv_stop (t : Nat) (s : AdcState) (h : chanInv s) :
    chanInv (adctask.stop_task t s) := by
  simp only [adctask.stop_task]
  split
  · exact ⟨h.1, h.2⟩
  · exact h

lemma chanInv_complete (input : Nat → Nat) (s : AdcState) (h : chanInv s) :
    chanInv (adc_complete input s) := by
  simp only [adc_complete]
  split
  · exact ⟨h.1, fun _ => rfl⟩
  · exact h

/-! The claims. -/

/-- Claim C1: at most one sampling task is registered as the active consumer at
any time (the registration is one optional reference, so two simultaneously
registered tasks coincide), and activating task B while task A is active
installs B as the active task, so that A no longer receives samples via
`service` over any subsequent sequence of ticks, conversion completions and
task stops. -/
theorem single_active_task_displacement (s : AdcState) (A B : Nat) (hAB : A ≠ B)
    (evs : List AdcEvent) :
    (adctask.start_task B s).current_adc_task = some B ∧
    (∀ C D : Nat,
        (runEvents evs (adctask.start_task B s)).current_adc_task = some C →
        (runEvents evs (adctask.start_task B s)).current_adc_task = some D →
        C = D) ∧
    (runEvents evs (adctask.start_task B s)).current_adc_task ≠ some A ∧
    (runEvents evs (adctask.start_task B s)).service_log A = s.service_log A := by
  have hstart := start_task_state B s
  have hA : (adctask.start_task B s).current_adc_task ≠ some A := by
    rw [hstart.1]
    intro hcontra
    exact hAB (Option.some.inj hcontra).symm
  have hrun := run_no_dispatch A evs (adctask.start_task B s) hA
  refine ⟨hstart.1, ?_, hrun.1, ?_⟩
  · intro C D hC hD
    rw [hC] at hD
    exact Option.some.inj hD
  · rw [hrun.2, congrFun hstart.2.2.1 A]

/-- Witness for C1 at a concrete task pair and event sequence. -/
theorem single_active_task_displacement_witness :
    (adctask.start_task 1 demoState).current_adc_task = some 1 ∧
    (runEvents [AdcEvent.tick]
        (adctask.start_task 1 demoState)).service_log 0 = demoState.service_log 0 :=
  ⟨(single_active_task_displacement demoState 0 1 (by decide) [AdcEvent.tick]).1,
   (single_active_task_displacement demoState 0 1 (by decide) [AdcEvent.tick]).2.2.2⟩

/-- Claim C2: after any activation via `start_task` the settle countdown is
the configured constant 4; over any list of samples delivered to `service`,
exactly the first 4 are withheld from the filter and every later one is
forwarded; and each single `service` call decrements a nonzero countdown
without forwarding, while with the countdown at zero it forwards the sample to
the filter. -/
theorem settle_count_discards_first_samples (s : AdcState) (t : Nat)
    (xs : List Nat) (hf : s.has_filter t = true) :
    (adctask.start_task t s).ignore_count_ t = k_adc_ignore_count ∧
    k_adc_ignore_count = 4 ∧
    (deliver t xs (adctask.start_task t s)).filter_log t =
      s.filter_log t ++ xs.drop 4 ∧
    (∀ (u : AdcState) (x : Nat), u.ignore_count_ t ≠ 0 →
        (adctask.service t x u).ignore_count_ t = u.ignore_count_ t - 1 ∧
        (adctask.service t x u).filter_log t = u.filter_log t) ∧
    (∀ (u : AdcState) (x : Nat), u.ignore_count_ t = 0 → u.has_filter t = true →
        (adctask.service t x u).filter_log t = u.filter_log t ++ [x]) := by
  have hstart := start_task_state t s
  refine ⟨hstart.2.1, rfl, ?_, ?_, ?_⟩
  · have hh : (adctask.start_task t s).has_filter t = true := by
      rw [congrFun hstart.2.2.2.2.1 t]; exact hf
    have hd := deliver_filter_log t xs _ hh
    rw [hstart.2.1, congrFun hstart.2.2.2.1 t] at hd
    exact hd
  · intro u x h
    exact ⟨(service_ignore_pos t x u h).1, congrFun (service_ignore_pos t x u h).2 t⟩
  · intro u x h0 hfu
    exact (service_ignore_zero_filter t x u h0 hfu).1

/-- Witness for C2: after starting task 0 of `demoState`, of five delivered
samples only the fifth reaches the filter. -/
theorem settle_count_discards_first_samples_witness :
    (deliver 0 [11, 12, 13, 14, 15] (adctask.start_task 0 demoState)).filter_log 0 =
      demoState.filter_log 0 ++ [11, 12, 13, 14, 15].drop 4 :=
  (settle_count_discards_first_samples demoState 0 [11, 12, 13, 14, 15] rfl).2.2.1

/-- Claim C3: at a tick that observes a completed conversion, the current
channel becomes the requested channel (ADMUX being rewritten exactly when they
differed), the converter is re-triggered on the post-switch channel, the
sample delivered to the active task is the pre-existing ADCH value, and that
value was converted on the channel the hardware was configured for before the
switch; moreover no other operation (start, stop, service, completion, or a
not-ready tick) ever changes the current channel. -/
theorem tick_order_read_switch_trigger_dispatch (s : AdcState)
    (hready : s.ADSC = false) (hinv : chanInv s) :
    (isr_tick s).current_adc_pin = s.next_adc_pin ∧
    (s.next_adc_pin = s.current_adc_pin → (isr_tick s).ADMUX = s.ADMUX) ∧
    (s.next_adc_pin ≠ s.current_adc_pin →
        (isr_tick s).ADMUX = admux_value s.next_adc_pin) ∧
    (isr_tick s).ADSC = true ∧
    (isr_tick s).pending_channel = (isr_tick s).ADMUX % 8 ∧
    (∀ t : Nat, s.current_adc_task = some t →
        (isr_tick s).service_log t = s.service_log t ++ [s.ADCH]) ∧
    s.sample_channel = s.ADMUX % 8 ∧
    (∀ (u : Nat) (s' : AdcState),
        (adctask.stop_task u s').current_adc_pin = s'.current_adc_pin ∧
        (adctask.start_task u s').current_adc_pin = s'.current_adc_pin ∧
        ∀ x : Nat, (adctask.service u x s').current_adc_pin = s'.current_adc_pin) ∧
    (∀ (input : Nat → Nat) (s' : AdcState),
        (adc_complete input s').current_adc_pin = s'.current_adc_pin) ∧
    (∀ s' : AdcState, s'.ADSC = true →
        (isr_tick s').current_adc_pin = s'.current_adc_pin) ∧
    (∀ s' : AdcState, chanInv s' →
        chanInv (isr_tick s') ∧
        (∀ u : Nat, chanInv (adctask.start_task u s') ∧
            chanInv (adctask.stop_task u s')) ∧
        (∀ input : Nat → Nat, chanInv (adc_complete input s'))) := by
  refine ⟨tick_ready_current_pin s hready, ?_, ?_, tick_ready_ADSC s hready,
    tick_ready_pending s hready, fun t ht => tick_ready_dispatch s t hready ht,
    (hinv.2 hready).trans hinv.1, ?_, ?_, ?_, ?_⟩
  · intro heq
    rw [tick_ready_ADMUX s hready, if_neg (fun hne => hne heq)]
  · intro hne
    rw [tick_ready_ADMUX s hready, if_pos hne]
  · intro u s'
    exact ⟨(stop_task_frame u s').1, (start_task_state u s').2.2.2.2.2,
      fun x => (service_hw_frame u x s').1⟩
  · intro input s'
    exact (complete_frame input s').1
  · intro s' h
    rw [isr_tick_not_ready s' h]
  · intro s' h
    exact ⟨chanInv_tick s' h, fun u => ⟨chanInv_start u s', chanInv_stop u s' h⟩,
      fun input => chanInv_complete input s' h⟩

/-- Witness for C3 at the concrete state `demoState`. -/
theorem tick_order_read_switch_trigger_dispatch_witness :
    (isr_tick demoState).current_adc_pin = demoState.next_adc_pin ∧
    (isr_tick demoState).ADSC = true :=
  ⟨(tick_order_read_switch_trigger_dispatch demoState rfl ⟨rfl, fun _ => rfl⟩).1,
   (tick_order_read_switch_trigger_dispatch demoState rfl ⟨rfl, fun _ => rfl⟩).2.2.2.1⟩

/-- Claim C4: `stop_task` clears the registration exactly when the stopping
task is the registered holder, and is a complete no-op (the whole state is
unchanged) when some other task, or none, holds the registration. -/
theorem stop_task_only_clears_holder (s : AdcState) (t : Nat) :
    (s.current_adc_task = some t →
        adctask.stop_task t s = { s with current_adc_task := none }) ∧
    (s.current_adc_task ≠ some t → adctask.stop_task t s = s) := by
  constructor
  · intro h
    simp [adctask.stop_task, h]
  · intro h
    simp [adctask.stop_task, h]

/-- Witness for C4: task 0 holds the registration in `demoState` and clears
it; task 1 does not and stopping it changes nothing. -/
theorem stop_task_only_clears_holder_witness :
    adctask.stop_task 0 demoState = { demoState with current_adc_task := none } ∧
    adctask.stop_task 1 demoState = demoState :=
  ⟨(stop_task_only_clears_holder demoState 0).1 rfl,
   (stop_task_only_clears_holder demoState 1).2 (by decide)⟩

/-- Claim C5: stopping the same task twice in a row leaves exactly the state
reached after the first stop (so in particular the active-task reference, the
channel variables and the initialisation flag are unchanged by the second
call). -/
theorem stop_task_idempotent (s : AdcState) (t : Nat) :
    adctask.stop_task t (adctask.stop_task t s) = adctask.stop_task t s := by
  by_cases h : s.current_adc_task = some t
  · simp [adctask.stop_task, h]
  · simp [adctask.stop_task, h]

/-- Claim C6: a tick that finds the conversion still in flight changes nothing
at all: no read, no channel change, no re-trigger, no dispatch, no error. -/
theorem tick_skips_when_not_ready (s : AdcState) (h : s.ADSC = true) :
    isr_tick s = s :=
  isr_tick_not_ready s h

/-- Witness for C6 at the concrete busy state. -/
theorem tick_skips_when_not_ready_witness : isr_tick demoBusyState = demoBusyState :=
  tick_skips_when_not_ready demoBusyState rfl

/-- Claim C7 (spec-modelled: the body of `davis6410::start_sample` is not
under src): from any non-idle state `start_sample` returns false and leaves
the whole wind-meter state, including the pulse counter, window start time and
callback, untouched; from idle it records the callback and context, resets the
pulse counter, records the window start timestamp, moves to the
speed-counting state and returns true. -/
theorem start_sample_busy_rejection (d : davis6410) (fn ctx now : Nat) :
    (d.state_ ≠ davis6410state.idle →
        davis6410.start_sample fn ctx now d = (d, false)) ∧
    (d.state_ = davis6410state.idle →
        davis6410.start_sample fn ctx now d =
          ({ d with sample_fn_ := some fn, context_ := ctx, pulse_counter := 0,
                    sample_start_time_ := now,
                    state_ := davis6410state.sampling_speed }, true)) := by
  constructor <;> intro h <;> simp [davis6410.start_sample, h]

/-- Witness for C7: a busy wind meter rejects the request untouched, an idle
one accepts it. -/
theorem start_sample_busy_rejection_witness :
    davis6410.start_sample 5 9 100 demoDavisBusy = (demoDavisBusy, false) ∧
    davis6410.start_sample 5 9 100 demoDavis =
      ({ demoDavis with sample_fn_ := some 5, context_ := 9, pulse_counter := 0,
                        sample_start_time_ := 100,
                        state_ := davis6410state.sampling_speed }, true) :=
  ⟨(start_sample_busy_rejection demoDavisBusy 5 9 100).1 (by decide),
   (start_sample_busy_rejection demoDavis 5 9 100).2 rfl⟩

/-- Claim C8: the implementation file's timer frequency 31250 is what the
configured compare value 7 actually yields (16000000 / (64 * 8)), the header
ties the advertised sample rate to its own constant 5000, and the two
constants disagree. -/
theorem timer_frequency_constants_inconsistent :
    k_timer_1_frequency_impl =
      k_arduino_frequency / (64 * (k_timer_1_comapre_to + 1)) ∧
    k_adc_sample_rate = k_timer_1_frequency_hdr ∧
    k_timer_1_frequency_impl ≠ k_timer_1_frequency_hdr := by
  decide

/-- Claim C9: a task whose filter pointer is null never reaches the filter
call: the filter log never grows however many samples are delivered, and once
the settle countdown is zero a delivered sample changes nothing except the
ghost record of the `service` call itself. -/
theorem null_filter_service_safe (s : AdcState) (t : Nat) (xs : List Nat)
    (hnf : s.has_filter t = false) :
    (deliver t xs s).filter_log = s.filter_log ∧
    (∀ x : Nat, s.ignore_count_ t = 0 →
        adctask.service t x s =
          { s with service_log :=
              Function.update s.service_log t (s.service_log t ++ [x]) }) := by
  refine ⟨deliver_no_filter t xs s hnf, ?_⟩
  intro x h0
  exact service_drop_sample t x s h0 hnf

/-- Witness for C9 using task 1 of `demoState`, which has no filter. -/
theorem null_filter_service_safe_witness :
    (deliver 1 [5, 6] demoState).filter_log = demoState.filter_log ∧
    adctask.service 1 9 demoState =
      { demoState with service_log :=
          Function.update demoState.service_log 1 (demoState.service_log 1 ++ [9]) } :=
  ⟨(null_filter_service_safe demoState 1 [5, 6] rfl).1,
   (null_filter_service_safe demoState 1 [5, 6] rfl).2 9 rfl⟩

set_option maxRecDepth 4000 in
/-- Claim C10: the byte written to ADMUX keeps only the low 3 bits of the
requested pin (pin mod 8) as the channel and always sets bit 6 (AVCC
reference) and bit 5 (left alignment); a tick that switches channels writes
exactly this byte, so a pin greater than 7 silently selects channel pin mod 8. -/
theorem admux_channel_masked_mod8 :
    (∀ pin : Nat, pin < 256 →
        admux_value pin = 96 + pin % 8 ∧
        admux_value pin % 8 = pin % 8 ∧
        Nat.testBit (admux_value pin) 6 = true ∧
        Nat.testBit (admux_value pin) 5 = true) ∧
    (∀ s : AdcState, s.ADSC = false → s.next_adc_pin ≠ s.current_adc_pin →
        (isr_tick s).ADMUX = admux_value s.next_adc_pin) := by
  constructor
  · decide
  · intro s h hne
    rw [tick_ready_ADMUX s h, if_pos hne]

/-- Witness for C10 at pin 10 (an out-of-range pin selecting channel 2) and at
the concrete state `demoState`, whose requested channel differs from the
current one. -/
theorem admux_channel_masked_mod8_witness :
    admux_value 10 = 96 + 10 % 8 ∧
    (isr_tick demoState).ADMUX = admux_value demoState.next_adc_pin :=
  ⟨(admux_channel_masked_mod8.1 10 (by decide)).1,
   admux_channel_masked_mod8.2 demoState rfl (by decide)⟩
